import Mathlib

/-!
Shallow embedding of `pilgrimor_postgresql_engine/engine.py`.

The Python module defines a class `PostgreSQLEngine` holding a database URL,
two public methods `execute_sql_with_return` / `execute_sql_no_return` that
open a scoped psycopg connection (autocommit toggled by `in_transaction`),
run one statement, optionally fetch all rows, and a private shaping helper
`_form_result`.

Modelling choices:
- Cell values are an opaque type `α`.
- A fetched result is `List (List α)` (rows of column values).
- The output elements of `_form_result` are either a raw cell value or a
  whole row tuple; we model this with `ResElem`.
- The psycopg driver is an oracle `DriverBehavior` fixing, for one call, the
  outcome of `connect`, `execute` and `fetchall` (`Option ε`: `none` means
  success, `some e` means the driver raises error `e`; `fetchall` returns
  rows on success).  The two methods are embedded as pure functions from the
  oracle to a result (`Except ε _`, surfacing the raised error) paired with
  the trace of driver/resource events the call performs, in order.  The
  Python `with` blocks close the cursor and the connection on both the
  normal and the exceptional path, which the traces reproduce.
-/

namespace PilgrimorEngine

/-- One element of the list produced by `_form_result`: either a raw cell
value (Python appends `record[0]`, or the values of the single row) or a
whole row tuple (Python appends `record`). -/
inductive ResElem (α : Type) where
  | scalar (a : α)
  | row (r : List α)
  deriving DecidableEq, Repr

/-- The engine object: `__init__` stores only the database URL. -/
structure PostgreSQLEngine where
  database_url : String
  deriving DecidableEq, Repr

/-- Driver and resource events a call performs, in order.  `connect`
records the `autocommit` flag passed to `psycopg.connect` and whether the
connect succeeded; `executeOp`/`fetchOp` record attempts and their
outcome; the close events record the `with`-block releases. -/
inductive Event where
  | connect (autocommit : Bool) (success : Bool)
  | cursorOpen
  | executeOp (success : Bool)
  | fetchOp (success : Bool)
  | cursorClose
  | connClose
  deriving DecidableEq, Repr

/-- Oracle for the psycopg driver during one call: outcome of `connect`,
of `cursor.execute`, and of `cursor.fetchall` (`none` = success for the
first two; the raised error otherwise). -/
structure DriverBehavior (ε α : Type) where
  connectResult : Option ε
  executeResult : Option ε
  fetchResult : Except ε (List (List α))
  deriving Repr

/-- The loop of `_form_result` over `result` when it has ≠ 0, ≠ 1 rows:
a 1-column row contributes its value (`record[0]`), a wider row contributes
the row itself, and a 0-column row contributes nothing. -/
def formRows {α : Type} : List (List α) → List (ResElem α)
  | [] => []
  | [] :: rest => formRows rest
  | [x] :: rest => ResElem.scalar x :: formRows rest
  | (x :: y :: zs) :: rest => ResElem.row (x :: y :: zs) :: formRows rest

/-- Embedding of `PostgreSQLEngine._form_result`. -/
def _form_result {α : Type} (result : List (List α)) : Option (List (ResElem α)) :=
  let result_length := result.length
  if result_length = 1 then
    some ((result.headD []).map ResElem.scalar)
  else if result_length = 0 then
    none
  else
    some (formRows result)

/-- `autocommit = False; if not in_transaction: autocommit = True` — Python
truthiness: `None` and `False` both turn autocommit on. -/
def autocommitFor (in_transaction : Option Bool) : Bool :=
  match in_transaction with
  | none => true
  | some b => !b

/-- Embedding of `PostgreSQLEngine.execute_sql_with_return`: connect with
the computed autocommit flag, open a cursor, execute, fetch all rows, close
cursor and connection (the `with` blocks close them on every exit path),
then shape the rows with `_form_result`.  Returns the call's result and its
event trace. -/
def execute_sql_with_return {ε α : Type} (engine : PostgreSQLEngine)
    (driver : DriverBehavior ε α) (sql_query : String)
    (sql_query_params : List α) (in_transaction : Option Bool) :
    Except ε (Option (List (ResElem α))) × List Event :=
  let autocommit := autocommitFor in_transaction
  match driver.connectResult with
  | some e => (Except.error e, [Event.connect autocommit false])
  | none =>
    match driver.executeResult with
    | some e =>
        (Except.error e,
         [Event.connect autocommit true, Event.cursorOpen, Event.executeOp false,
          Event.cursorClose, Event.connClose])
    | none =>
        match driver.fetchResult with
        | Except.error e =>
            (Except.error e,
             [Event.connect autocommit true, Event.cursorOpen, Event.executeOp true,
              Event.fetchOp false, Event.cursorClose, Event.connClose])
        | Except.ok result =>
            (Except.ok (_form_result result),
             [Event.connect autocommit true, Event.cursorOpen, Event.executeOp true,
              Event.fetchOp true, Event.cursorClose, Event.connClose])

/-- Embedding of `PostgreSQLEngine.execute_sql_no_return`: same connection
and transaction handling, executes the statement and never fetches; the
method body ends after the `with` blocks, returning `None` (here `Unit`). -/
def execute_sql_no_return {ε α : Type} (engine : PostgreSQLEngine)
    (driver : DriverBehavior ε α) (sql_query : String)
    (sql_query_params : List α) (in_transaction : Option Bool) :
    Except ε Unit × List Event :=
  let autocommit := autocommitFor in_transaction
  match driver.connectResult with
  | some e => (Except.error e, [Event.connect autocommit false])
  | none =>
    match driver.executeResult with
    | some e =>
        (Except.error e,
         [Event.connect autocommit true, Event.cursorOpen, Event.executeOp false,
          Event.cursorClose, Event.connClose])
    | none =>
        (Except.ok (),
         [Event.connect autocommit true, Event.cursorOpen, Event.executeOp true,
          Event.cursorClose, Event.connClose])

/-- Embedding of `PostgreSQLEngine.__init__`: the body is the single
assignment `self.database_url = database_url`; it performs no driver call,
so its event trace is empty. -/
def PostgreSQLEngine.init (database_url : String) : PostgreSQLEngine × List Event :=
  ({ database_url := database_url }, [])

/-- The autocommit flag passed to the (first) connect event of a trace. -/
def traceAutocommit : List Event → Option Bool
  | Event.connect b _ :: _ => some b
  | _ => none

/-- Event classifiers used to count resource acquisitions/releases and
driver attempts in a trace. -/
def isConnectOk : Event → Bool
  | Event.connect _ s => s
  | _ => false

def isConnClose : Event → Bool
  | Event.connClose => true
  | _ => false

def isCursorOpen : Event → Bool
  | Event.cursorOpen => true
  | _ => false

def isCursorClose : Event → Bool
  | Event.cursorClose => true
  | _ => false

def isConnectEvent : Event → Bool
  | Event.connect _ _ => true
  | _ => false

def isExecuteEvent : Event → Bool
  | Event.executeOp _ => true
  | _ => false

def isFetchEvent : Event → Bool
  | Event.fetchOp _ => true
  | _ => false

/-- The shape `_form_result`'s loop gives one non-empty record. -/
def shapeRecord {α : Type} (record : List α) : ResElem α :=
  match record with
  | [x] => ResElem.scalar x
  | r => ResElem.row r

/-- With more than one row, `_form_result` takes neither early-return branch
and returns the loop's accumulated list. -/
theorem form_result_length_gt_one {α : Type} (result : List (List α))
    (h : 1 < result.length) : _form_result result = some (formRows result) := by
  have h1 : result.length ≠ 1 := by omega
  have h0 : result.length ≠ 0 := by omega
  simp [_form_result, h1, h0]

/-- The loop maps a list of single-column rows to their values, in order. -/
theorem formRows_singletons {α : Type} (vs : List α) :
    formRows (vs.map fun v => [v]) = vs.map ResElem.scalar := by
  induction vs with
  | nil => rfl
  | cons v vs ih => simp [formRows, ih]

/-- The loop keeps every row that has more than one column, in order. -/
theorem formRows_wide {α : Type} (rows : List (List α))
    (h : ∀ r ∈ rows, 1 < r.length) :
    formRows rows = rows.map ResElem.row := by
  induction rows with
  | nil => rfl
  | cons record rest ih =>
    have hr : 1 < record.length := h record (List.mem_cons_self _ _)
    cases record with
    | nil => simp at hr
    | cons x xs =>
      cases xs with
      | nil => simp at hr
      | cons y zs =>
        simp [formRows, ih (fun r hmem => h r (List.mem_cons_of_mem _ hmem))]

/-- The loop is exactly: drop the zero-column rows, shape each of the rest. -/
theorem formRows_eq_filter_map {α : Type} (rows : List (List α)) :
    formRows rows = (rows.filter fun r => !r.isEmpty).map shapeRecord := by
  induction rows with
  | nil => rfl
  | cons record rest ih =>
    cases record with
    | nil => simpa [formRows, List.filter] using ih
    | cons x xs =>
      cases xs with
      | nil => simp [formRows, List.filter, shapeRecord, ih]
      | cons y zs => simp [formRows, List.filter, shapeRecord, ih]

/-- C1: when the underlying fetch yields exactly one row `r` (with N
columns), `execute_sql_with_return` returns that row's N values as a flat
list; equivalently, `_form_result` on a singleton list of one tuple returns
the list of that tuple's elements. -/
theorem single_row_flattens {ε α : Type} (engine : PostgreSQLEngine)
    (driver : DriverBehavior ε α) (q : String) (p : List α) (t : Option Bool)
    (r : List α) (hc : driver.connectResult = none)
    (he : driver.executeResult = none)
    (hf : driver.fetchResult = Except.ok [r]) :
    (execute_sql_with_return engine driver q p t).1
        = Except.ok (some (r.map ResElem.scalar))
      ∧ _form_result [r] = some (r.map ResElem.scalar) := by
  constructor
  · simp [execute_sql_with_return, hc, he, hf, _form_result]
  · simp [_form_result]

/-- Witness for C1: one row `[7, 8]` comes back as the flat list `[7, 8]`. -/
theorem single_row_flattens_witness :
    (execute_sql_with_return (⟨"db"⟩ : PostgreSQLEngine)
        (⟨none, none, Except.ok [[7, 8]]⟩ : DriverBehavior Nat Nat)
        "q" [] (some true)).1
        = Except.ok (some (([7, 8] : List Nat).map ResElem.scalar))
      ∧ _form_result [([7, 8] : List Nat)]
        = some (([7, 8] : List Nat).map ResElem.scalar) :=
  single_row_flattens ⟨"db"⟩ ⟨none, none, Except.ok [[7, 8]]⟩
    "q" [] (some true) [7, 8] rfl rfl rfl

/-- C2: when the underlying fetch yields zero rows,
`execute_sql_with_return` returns `none`; equivalently, `_form_result` on
the empty list returns `none`. -/
theorem zero_rows_returns_none {ε α : Type} (engine : PostgreSQLEngine)
    (driver : DriverBehavior ε α) (q : String) (p : List α) (t : Option Bool)
    (hc : driver.connectResult = none)
    (he : driver.executeResult = none)
    (hf : driver.fetchResult = Except.ok []) :
    (execute_sql_with_return engine driver q p t).1 = Except.ok none
      ∧ _form_result ([] : List (List α)) = none := by
  constructor
  · simp [execute_sql_with_return, hc, he, hf, _form_result]
  · rfl

/-- Witness for C2 at a concrete driver yielding zero rows. -/
theorem zero_rows_returns_none_witness :
    (execute_sql_with_return (⟨"db"⟩ : PostgreSQLEngine)
        (⟨none, none, Except.ok []⟩ : DriverBehavior Nat Nat)
        "q" [] (some true)).1 = Except.ok none
      ∧ _form_result ([] : List (List Nat)) = none :=
  zero_rows_returns_none ⟨"db"⟩ ⟨none, none, Except.ok []⟩
    "q" [] (some true) rfl rfl rfl

/-- C3: when the underlying fetch yields M>1 rows of one column each,
`execute_sql_with_return` returns the M scalar values in row order. -/
theorem many_single_column_rows_flatten {ε α : Type}
    (engine : PostgreSQLEngine) (driver : DriverBehavior ε α) (q : String)
    (p : List α) (t : Option Bool) (vs : List α) (hM : 1 < vs.length)
    (hc : driver.connectResult = none)
    (he : driver.executeResult = none)
    (hf : driver.fetchResult = Except.ok (vs.map fun v => [v])) :
    (execute_sql_with_return engine driver q p t).1
      = Except.ok (some (vs.map ResElem.scalar)) := by
  have hgt : 1 < (vs.map fun v => [v]).length := by simpa using hM
  simp [execute_sql_with_return, hc, he, hf,
        form_result_length_gt_one _ hgt, formRows_singletons]

/-- Witness for C3: three single-column rows come back as three scalars. -/
theorem many_single_column_rows_flatten_witness :
    (execute_sql_with_return (⟨"db"⟩ : PostgreSQLEngine)
        (⟨none, none, Except.ok (([1, 2, 3] : List Nat).map fun v => [v])⟩ :
          DriverBehavior Nat Nat)
        "q" [] (some true)).1
      = Except.ok (some (([1, 2, 3] : List Nat).map ResElem.scalar)) :=
  many_single_column_rows_flatten ⟨"db"⟩
    ⟨none, none, Except.ok (([1, 2, 3] : List Nat).map fun v => [v])⟩
    "q" [] (some true) [1, 2, 3] (by decide) rfl rfl rfl

/-- C4: when the underlying fetch yields M>1 rows each with more than one
column, `execute_sql_with_return` returns the M row tuples unchanged, in
row order. -/
theorem many_wide_rows_kept {ε α : Type} (engine : PostgreSQLEngine)
    (driver : DriverBehavior ε α) (q : String) (p : List α) (t : Option Bool)
    (rows : List (List α)) (hM : 1 < rows.length)
    (hw : ∀ r ∈ rows, 1 < r.length)
    (hc : driver.connectResult = none)
    (he : driver.executeResult = none)
    (hf : driver.fetchResult = Except.ok rows) :
    (execute_sql_with_return engine driver q p t).1
      = Except.ok (some (rows.map ResElem.row)) := by
  simp [execute_sql_with_return, hc, he, hf,
        form_result_length_gt_one rows hM, formRows_wide rows hw]

/-- Witness for C4: two two-column rows come back as two row tuples. -/
theorem many_wide_rows_kept_witness :
    (execute_sql_with_return (⟨"db"⟩ : PostgreSQLEngine)
        (⟨none, none, Except.ok [[1, 2], [3, 4]]⟩ : DriverBehavior Nat Nat)
        "q" [] (some true)).1
      = Except.ok (some (([[1, 2], [3, 4]] : List (List Nat)).map ResElem.row)) :=
  many_wide_rows_kept ⟨"db"⟩ ⟨none, none, Except.ok [[1, 2], [3, 4]]⟩
    "q" [] (some true) [[1, 2], [3, 4]] (by decide) (by decide) rfl rfl rfl

/-- C10: with more than one fetched row, any zero-column row is silently
omitted: `_form_result` returns exactly one shaped entry per row that has at
least one column, so the output length is the count of non-empty rows and
can be smaller than the number of fetched rows. -/
theorem empty_rows_omitted {α : Type} (rows : List (List α))
    (hM : 1 < rows.length) :
    _form_result rows
        = some ((rows.filter fun r => !r.isEmpty).map shapeRecord)
      ∧ (formRows rows).length = (rows.filter fun r => !r.isEmpty).length := by
  refine ⟨?_, ?_⟩
  · rw [form_result_length_gt_one rows hM, formRows_eq_filter_map]
  · rw [formRows_eq_filter_map, List.length_map]

/-- Witness for C10: of three rows one is empty; the output has two
entries, fewer than the three fetched rows. -/
theorem empty_rows_omitted_witness :
    _form_result ([[1], [], [2, 3]] : List (List Nat))
        = some ((([[1], [], [2, 3]] : List (List Nat)).filter
            fun r => !r.isEmpty).map shapeRecord)
      ∧ (formRows ([[1], [], [2, 3]] : List (List Nat))).length
        = (([[1], [], [2, 3]] : List (List Nat)).filter
            fun r => !r.isEmpty).length :=
  empty_rows_omitted [[1], [], [2, 3]] (by decide)

/-- C5: for both execute methods, `in_transaction = false` opens the
connection with autocommit enabled and `in_transaction = true` (the
default) opens it with autocommit disabled, whatever the driver does. -/
theorem in_transaction_controls_autocommit {ε α : Type}
    (engine : PostgreSQLEngine) (driver : DriverBehavior ε α) (q : String)
    (p : List α) :
    traceAutocommit (execute_sql_with_return engine driver q p (some false)).2
        = some true
      ∧ traceAutocommit
          (execute_sql_with_return engine driver q p (some true)).2
        = some false
      ∧ traceAutocommit
          (execute_sql_no_return engine driver q p (some false)).2
        = some true
      ∧ traceAutocommit
          (execute_sql_no_return engine driver q p (some true)).2
        = some false := by
  obtain ⟨c, ex, f⟩ := driver
  cases c <;> cases ex <;> cases f <;>
    simp [execute_sql_with_return, execute_sql_no_return, traceAutocommit,
          autocommitFor]

/-- C6: for both execute methods and every driver outcome (connect,
execute or fetch failing included), the trace balances: every successful
connect is matched by a connection close and every cursor open by a cursor
close, so no connection or cursor remains open when the call returns. -/
theorem connection_released_on_all_paths {ε α : Type}
    (engine : PostgreSQLEngine) (driver : DriverBehavior ε α) (q : String)
    (p : List α) (t : Option Bool) :
    ((execute_sql_with_return engine driver q p t).2.countP isConnectOk
        = (execute_sql_with_return engine driver q p t).2.countP isConnClose)
      ∧ ((execute_sql_with_return engine driver q p t).2.countP isCursorOpen
        = (execute_sql_with_return engine driver q p t).2.countP isCursorClose)
      ∧ ((execute_sql_no_return engine driver q p t).2.countP isConnectOk
        = (execute_sql_no_return engine driver q p t).2.countP isConnClose)
      ∧ ((execute_sql_no_return engine driver q p t).2.countP isCursorOpen
        = (execute_sql_no_return engine driver q p t).2.countP isCursorClose) := by
  obtain ⟨c, ex, f⟩ := driver
  cases c <;> cases ex <;> cases f <;>
    simp [execute_sql_with_return, execute_sql_no_return, List.countP_cons,
          isConnectOk, isConnClose, isCursorOpen, isCursorClose]

/-- C7: `execute_sql_no_return` never performs a fetch, whatever the
driver outcome, and its only success value is the unit value (it returns
nothing). -/
theorem no_return_never_fetches {ε α : Type} (engine : PostgreSQLEngine)
    (driver : DriverBehavior ε α) (q : String) (p : List α)
    (t : Option Bool) :
    ((execute_sql_no_return engine driver q p t).2.countP isFetchEvent = 0)
      ∧ ((execute_sql_no_return engine driver q p t).1 = Except.ok ()
          ∨ ∃ e, (execute_sql_no_return engine driver q p t).1
              = Except.error e) := by
  obtain ⟨c, ex, f⟩ := driver
  cases c <;> cases ex <;>
    simp [execute_sql_no_return, List.countP_cons, isFetchEvent]

/-- C8: whichever of connect, execute or fetch fails, both execute methods
surface that driver error verbatim as the call's error, and each driver
operation is attempted at most once (connect exactly once, no retry). -/
theorem driver_errors_surfaced_verbatim {ε α : Type}
    (engine : PostgreSQLEngine) (driver : DriverBehavior ε α) (q : String)
    (p : List α) (t : Option Bool) (e : ε) :
    (driver.connectResult = some e →
        (execute_sql_with_return engine driver q p t).1 = Except.error e
        ∧ (execute_sql_no_return engine driver q p t).1 = Except.error e)
      ∧ (driver.connectResult = none → driver.executeResult = some e →
          (execute_sql_with_return engine driver q p t).1 = Except.error e
          ∧ (execute_sql_no_return engine driver q p t).1 = Except.error e)
      ∧ (driver.connectResult = none → driver.executeResult = none →
          driver.fetchResult = Except.error e →
          (execute_sql_with_return engine driver q p t).1 = Except.error e)
      ∧ (execute_sql_with_return engine driver q p t).2.countP isConnectEvent
          = 1
      ∧ (execute_sql_with_return engine driver q p t).2.countP isExecuteEvent
          ≤ 1
      ∧ (execute_sql_with_return engine driver q p t).2.countP isFetchEvent
          ≤ 1
      ∧ (execute_sql_no_return engine driver q p t).2.countP isConnectEvent
          = 1
      ∧ (execute_sql_no_return engine driver q p t).2.countP isExecuteEvent
          ≤ 1 := by
  obtain ⟨c, ex, f⟩ := driver
  cases c <;> cases ex <;> cases f <;>
    simp [execute_sql_with_return, execute_sql_no_return, List.countP_cons,
          isConnectEvent, isExecuteEvent, isFetchEvent]

/-- Witness for C8: a connect failure, an execute failure and a fetch
failure, each surfaced verbatim at a concrete driver. -/
theorem driver_errors_surfaced_verbatim_witness :
    (execute_sql_with_return (⟨"db"⟩ : PostgreSQLEngine)
        (⟨some 3, none, Except.ok []⟩ : DriverBehavior Nat Nat)
        "q" [] (some true)).1 = Except.error 3
      ∧ (execute_sql_with_return (⟨"db"⟩ : PostgreSQLEngine)
          (⟨none, some 4, Except.ok []⟩ : DriverBehavior Nat Nat)
          "q" [] (some true)).1 = Except.error 4
      ∧ (execute_sql_with_return (⟨"db"⟩ : PostgreSQLEngine)
          (⟨none, none, Except.error 5⟩ : DriverBehavior Nat Nat)
          "q" [] (some true)).1 = Except.error 5 :=
  ⟨((driver_errors_surfaced_verbatim ⟨"db"⟩ ⟨some 3, none, Except.ok []⟩
      "q" [] (some true) 3).1 rfl).1,
   ((driver_errors_surfaced_verbatim ⟨"db"⟩ ⟨none, some 4, Except.ok []⟩
      "q" [] (some true) 4).2.1 rfl rfl).1,
   (driver_errors_surfaced_verbatim ⟨"db"⟩ ⟨none, none, Except.error 5⟩
      "q" [] (some true) 5).2.2.1 rfl rfl rfl⟩

/-- C9: construction stores the URL in the new object and performs no
driver call or I/O — its event trace is empty, and the object holds
nothing but the URL. -/
theorem init_stores_url_no_io (database_url : String) :
    (PostgreSQLEngine.init database_url).1.database_url = database_url
      ∧ (PostgreSQLEngine.init database_url).2 = []
      ∧ (PostgreSQLEngine.init database_url).1
          = { database_url := database_url } :=
  ⟨rfl, rfl, rfl⟩

end PilgrimorEngine
